import Mathlib

/-!
Shallow embedding of the TED-talk downloader bot (src/tedtalk_bot.py).

Text is modelled as Lean `String` (a wrapper around `List Char`), and the
Python string primitives used by the source (`str.strip`, `str.lower`,
`str.startswith`, `str.endswith`, the `in` substring test) are embedded as
executable functions over the underlying character lists.

The three effectful functions of the source — `download_ted_talk`,
`upload_to_0x0st` and `handle_message` — are embedded as pure functions of
an explicit environment describing the outcomes of the external calls they
make (the yt-dlp engine, the filesystem listing, the HTTP POST, and each
Telegram transport call, every one of which may raise).  `handle_message`
additionally returns the trace of external effects it performed, so that
properties such as "the upload adapter is never invoked" or "the file is
removed exactly once" are statements about the trace.
-/

/-- Python `s.startswith(p)`: `p` is a prefix of `s`. -/
def pyStartsWith (s p : String) : Bool := p.data.isPrefixOf s.data

/-- Python substring containment over character lists: the needle occurs
contiguously somewhere in the haystack. -/
def listContainsSub (needle : List Char) : List Char → Bool
  | [] => needle.isEmpty
  | c :: rest => needle.isPrefixOf (c :: rest) || listContainsSub needle rest

/-- Python `needle in hay` on strings. -/
def pyIn (needle hay : String) : Bool := listContainsSub needle.data hay.data

/-- Python `s.lower()` (ASCII case folding, as used on URLs here). -/
def pyLower (s : String) : String := String.mk (s.data.map Char.toLower)

/-- Drop leading and trailing whitespace from a character list. -/
def stripList (l : List Char) : List Char :=
  ((l.dropWhile Char.isWhitespace).reverse.dropWhile Char.isWhitespace).reverse

/-- Python `s.strip()`. -/
def pyStrip (s : String) : String := String.mk (stripList s.data)

/-- Python `s.endswith(suf)`. -/
def pyEndsWith (s suf : String) : Bool := suf.data.isSuffixOf s.data

/-- `is_ted_url` (src/tedtalk_bot.py:52-55): any of the domains
`ted.com`, `www.ted.com` occurs as a substring of the lowercased url, and
`/talks/` occurs as a substring of the lowercased url. -/
def is_ted_url (url : String) : Bool :=
  (pyIn "ted.com" (pyLower url) || pyIn "www.ted.com" (pyLower url))
    && pyIn "/talks/" (pyLower url)

/-- The acceptance condition of the gate in `handle_message`
(src/tedtalk_bot.py:123): `message_text.startswith('http')` and
`is_ted_url(message_text)`. -/
def urlGate (text : String) : Bool := pyStartsWith text "http" && is_ted_url text

/-- `TELEGRAM_FILE_LIMIT = 49 * 1024 * 1024` (src/tedtalk_bot.py:21). -/
def TELEGRAM_FILE_LIMIT : Nat := 49 * 1024 * 1024

/-- Round `num / den` to the nearest integer, ties to even — the rounding
performed by Python's `f"{x:.1f}"` on an exactly representable value. -/
def roundHalfEven (num den : Nat) : Nat :=
  let q := num / den
  let r := num % den
  if 2 * r < den then q
  else if den < 2 * r then q + 1
  else if q % 2 = 0 then q else q + 1

/-- Python `f"{size / (1024*1024):.1f}"` for a byte count `size`.  Division
of a Nat below `2^53` by the power of two `2^20` is exact in double
precision, so the formatted value is the exact rational `size / 2^20`
rounded to one decimal, ties to even. -/
def fmtSizeMB (size : Nat) : String :=
  let t := roundHalfEven (size * 10) (1024 * 1024)
  toString (t / 10) ++ "." ++ toString (t % 10)

/-- The inline-delivery caption (src/tedtalk_bot.py:145). -/
def captionOf (title : String) (size : Nat) : String :=
  "🎬 " ++ title ++ "\n📊 Size: " ++ fmtSizeMB size ++ " MB"

/-- The final text of the progress message on link delivery
(src/tedtalk_bot.py:156-160). -/
def linkText (title : String) (size : Nat) (link : String) : String :=
  "🎬 " ++ title ++ "\n\n🔗 This video is too large for Telegram ("
    ++ fmtSizeMB size ++ " MB).\n\nHere is your temporary download link:\n" ++ link

/-- Metadata returned by `ydl.extract_info(url, download=False)`
(src/tedtalk_bot.py:96-97): the title (after the `info.get` default) and the
probed duration in seconds.  The source never reads the duration. -/
structure ProbeInfo where
  title : String
  duration : Nat

/-- The dictionary returned by `download_ted_talk`: either
`{'success': True, 'file_path': …, 'title': …, 'file_size': …}` or
`{'success': False, 'error': …}`. -/
inductive DlResult where
  | ok (filePath title : String) (fileSize : Nat)
  | err (msg : String)
deriving DecidableEq

/-- Environment of one `download_ted_talk` call: the outcome of the two
yt-dlp calls and the state of the shared temp directory.
`probe = none` models `extract_info` raising; `dlOk = false` models
`ydl.download` raising; `listing` is `os.listdir(self.temp_dir)` after the
download step, in listing order; `getsize` is `os.path.getsize`. -/
structure DlEnv where
  probe : Option ProbeInfo
  dlOk : Bool
  listing : List String
  getsize : String → Nat

/-- `download_ted_talk` (src/tedtalk_bot.py:83-117).  Any exception from the
engine is caught and turned into the generic download error; otherwise the
first entry of the temp-directory listing ending in `.mp4` is taken as the
downloaded file, and its path, the probed title and its size are returned. -/
def download_ted_talk (env : DlEnv) (tempDir : String) : DlResult :=
  match env.probe with
  | none => .err "An unexpected error occurred during download."
  | some info =>
    if env.dlOk = false then .err "An unexpected error occurred during download."
    else
      match env.listing.find? (fun f => pyEndsWith f ".mp4") with
      | some f =>
          let downloaded_file := tempDir ++ "/" ++ f
          if env.listing.contains f then
            .ok downloaded_file info.title (env.getsize downloaded_file)
          else .err "Failed to locate the final downloaded video file."
      | none => .err "Failed to locate the final downloaded video file."

/-- Outcome of the single `requests.post` in `upload_to_0x0st`:
either a transport-level exception (`requests.exceptions.RequestException`,
covering connection failures) or an HTTP response with a status code and a
plaintext body. -/
inductive PostOutcome where
  | connError
  | response (status : Nat) (body : String)

/-- Environment of one `upload_to_0x0st` call: whether `open(file_path)`
succeeded, and the outcome of the POST. -/
structure UlEnv where
  openOk : Bool
  post : PostOutcome

/-- The dictionary returned by `upload_to_0x0st`: either
`{'success': True, 'link': …}` or `{'success': False, 'error': …}`. -/
inductive UlResult where
  | ok (link : String)
  | err (msg : String)
deriving DecidableEq

/-- `response.raise_for_status()` of the requests library raises
`HTTPError` (a `RequestException`) exactly for 4xx and 5xx status codes. -/
def raise_for_status_raises (status : Nat) : Bool := 400 ≤ status && status < 600

/-- `upload_to_0x0st` (src/tedtalk_bot.py:58-80).  A failure to open the
file falls into the generic `except Exception`; a connection failure or a
`raise_for_status` error falls into the `RequestException` handler; a
delivered response has its body trimmed and checked to start with `http`. -/
def upload_to_0x0st (env : UlEnv) (_file_path : String) : UlResult :=
  if env.openOk = false then .err "An exception occurred during file upload."
  else
    match env.post with
    | .connError => .err "Failed to communicate with the file hosting service."
    | .response status body =>
      if raise_for_status_raises status then
        .err "Failed to communicate with the file hosting service."
      else
        let download_link := pyStrip body
        if pyStartsWith download_link "http" then .ok download_link
        else .err "File host returned an invalid link."

/-- One external effect performed by `handle_message`: a Telegram reply, an
edit / deletion of the progress message, a video reply, a file open, a call
into one of the two adapters, or an `os.remove`.  An operation that raises
produces no event. -/
inductive Event where
  | replyText (t : String)
  | callDownload (url : String)
  | editProgress (t : String)
  | openFile (path : String)
  | replyVideo (path caption : String)
  | deleteProgress
  | callUpload (path : String)
  | removeFile (path : String)
deriving DecidableEq

/-- How one `handle_message` invocation ends: a normal return, or an
exception propagating out of the handler to the bot shell. -/
inductive HandlerResult where
  | returned
  | escaped
deriving DecidableEq

/-- Environment of one `handle_message` call: the result the awaited
`download_ted_talk` call produces (that coroutine catches its own
exceptions, so it always returns a dictionary), the result the awaited
`upload_to_0x0st` call produces (likewise total), and one flag per
fallible transport / filesystem operation in the handler saying whether
that operation raises when reached. -/
structure Env where
  dl : DlResult
  ul : UlResult
  fail_replyGuidance : Bool
  fail_replyProgress : Bool
  fail_editDlErr : Bool
  fail_editUploadingTg : Bool
  fail_openFile : Bool
  fail_replyVideo : Bool
  fail_deleteProgress : Bool
  fail_editTooLarge : Bool
  fail_editLink : Bool
  fail_editUlErr : Bool
  fail_remove : Bool
  fail_editGeneric : Bool

/-- The guidance reply for out-of-scope messages (src/tedtalk_bot.py:124). -/
def guidanceMsg : String := "Please send a valid TED Talk URL from ted.com"

/-- The initial progress-message text (src/tedtalk_bot.py:127). -/
def processingMsg : String := "🔄 Processing your request..."

/-- The progress text before inline delivery (src/tedtalk_bot.py:141). -/
def uploadingTgMsg : String := "✅ Download complete! Uploading video to Telegram..."

/-- The progress text before link generation (src/tedtalk_bot.py:150). -/
def tooLargeMsg : String :=
  "✅ Download complete! File is too large for Telegram, generating a download link..."

/-- The generic boundary error text (src/tedtalk_bot.py:168). -/
def genericErrMsg : String := "❌ An unexpected error occurred."

/-- The body of the `try` block of `handle_message`
(src/tedtalk_bot.py:129-164), from the `download_ted_talk` call to the
final `os.remove`.  Returns the events performed inside the block and
whether the block raised (in which case control moves to the `except`
clause).  The download-failure branch returns from the handler after its
edit, so it performs no remove. -/
def tryBody (env : Env) (message_text : String) : List Event × Bool :=
  let dlEv := Event.callDownload message_text
  match env.dl with
  | .err e =>
      if env.fail_editDlErr then ([dlEv], true)
      else ([dlEv, .editProgress ("❌ Error: " ++ e)], false)
  | .ok file_path title file_size =>
      if file_size < TELEGRAM_FILE_LIMIT then
        if env.fail_editUploadingTg then ([dlEv], true)
        else if env.fail_openFile then ([dlEv, .editProgress uploadingTgMsg], true)
        else if env.fail_replyVideo then
          ([dlEv, .editProgress uploadingTgMsg, .openFile file_path], true)
        else if env.fail_deleteProgress then
          ([dlEv, .editProgress uploadingTgMsg, .openFile file_path,
            .replyVideo file_path (captionOf title file_size)], true)
        else if env.fail_remove then
          ([dlEv, .editProgress uploadingTgMsg, .openFile file_path,
            .replyVideo file_path (captionOf title file_size), .deleteProgress], true)
        else
          ([dlEv, .editProgress uploadingTgMsg, .openFile file_path,
            .replyVideo file_path (captionOf title file_size), .deleteProgress,
            .removeFile file_path], false)
      else
        if env.fail_editTooLarge then ([dlEv], true)
        else
          match env.ul with
          | .ok link =>
              if env.fail_editLink then
                ([dlEv, .editProgress tooLargeMsg, .callUpload file_path], true)
              else if env.fail_remove then
                ([dlEv, .editProgress tooLargeMsg, .callUpload file_path,
                  .editProgress (linkText title file_size link)], true)
              else
                ([dlEv, .editProgress tooLargeMsg, .callUpload file_path,
                  .editProgress (linkText title file_size link), .removeFile file_path], false)
          | .err e =>
              if env.fail_editUlErr then
                ([dlEv, .editProgress tooLargeMsg, .callUpload file_path], true)
              else if env.fail_remove then
                ([dlEv, .editProgress tooLargeMsg, .callUpload file_path,
                  .editProgress ("❌ Error: " ++ e)], true)
              else
                ([dlEv, .editProgress tooLargeMsg, .callUpload file_path,
                  .editProgress ("❌ Error: " ++ e), .removeFile file_path], false)

/-- `handle_message` after the initial strip (src/tedtalk_bot.py:123-168),
as a function of the already-stripped message text: the gate, the guidance
reply, the progress message, the `try` block and the `except` clause whose
own edit may itself raise and escape the handler. -/
def handleCore (env : Env) (message_text : String) : List Event × HandlerResult :=
  if urlGate message_text then
    if env.fail_replyProgress then ([], .escaped)
    else
      let p := tryBody env message_text
      if p.2 then
        if env.fail_editGeneric then (Event.replyText processingMsg :: p.1, .escaped)
        else (Event.replyText processingMsg :: p.1 ++ [.editProgress genericErrMsg], .returned)
      else (Event.replyText processingMsg :: p.1, .returned)
  else
    if env.fail_replyGuidance then ([], .escaped)
    else ([.replyText guidanceMsg], .returned)

/-- `handle_message` (src/tedtalk_bot.py:119-168): strip the incoming text
(line 121), then run the rest of the handler on the stripped text. -/
def handle_message (env : Env) (rawText : String) : List Event × HandlerResult :=
  handleCore env (pyStrip rawText)

/-- Number of upload-adapter invocations in a trace. -/
def countUpload : List Event → Nat
  | [] => 0
  | Event.callUpload _ :: rest => countUpload rest + 1
  | _ :: rest => countUpload rest

/-- Number of `os.remove` completions in a trace. -/
def countRemove : List Event → Nat
  | [] => 0
  | Event.removeFile _ :: rest => countRemove rest + 1
  | _ :: rest => countRemove rest

/-- No transport or filesystem operation of the handler raises. -/
def NoFaults (env : Env) : Prop :=
  env.fail_replyGuidance = false ∧ env.fail_replyProgress = false ∧
  env.fail_editDlErr = false ∧ env.fail_editUploadingTg = false ∧
  env.fail_openFile = false ∧ env.fail_replyVideo = false ∧
  env.fail_deleteProgress = false ∧ env.fail_editTooLarge = false ∧
  env.fail_editLink = false ∧ env.fail_editUlErr = false ∧
  env.fail_remove = false ∧ env.fail_editGeneric = false

/-- The validator as the claim words it, for comparison with the code's
gate: the string begins with an http or https scheme, its host component
(the part between the scheme and the first slash) equals `ted.com` or
`www.ted.com` case-insensitively, and its path contains `/talks/`. -/
def spec_is_in_scope (text : String) : Bool :=
  let l := pyLower text
  let rest :=
    if pyStartsWith l "https://" then some (l.data.drop 8)
    else if pyStartsWith l "http://" then some (l.data.drop 7)
    else none
  match rest with
  | none => false
  | some r =>
      let host := r.takeWhile (fun c => c ≠ '/')
      let path := r.drop host.length
      (host == "ted.com".data || host == "www.ted.com".data)
        && listContainsSub "/talks/".data path

/-- A well-formed talk URL used as a concrete input. -/
def tedUrl : String := "https://www.ted.com/talks/example_talk"

/-- A fault-free handler environment with a small successful download. -/
def okEnvInline : Env where
  dl := .ok "/tmp/talk.mp4" "T" 1000
  ul := .err "upload unused"
  fail_replyGuidance := false
  fail_replyProgress := false
  fail_editDlErr := false
  fail_editUploadingTg := false
  fail_openFile := false
  fail_replyVideo := false
  fail_deleteProgress := false
  fail_editTooLarge := false
  fail_editLink := false
  fail_editUlErr := false
  fail_remove := false
  fail_editGeneric := false

/-- A fault-free handler environment with a large successful download and a
successful upload. -/
def okEnvLink : Env :=
  { okEnvInline with
      dl := .ok "/tmp/talk.mp4" "T" (80 * 1024 * 1024)
      ul := .ok "https://0x0.st/abc.mp4" }

/-- A download environment where the probe reports a 2400-second talk and
the engine then produces a single mp4. -/
def c1Env : DlEnv where
  probe := some { title := "T", duration := 2400 }
  dlOk := true
  listing := ["talk.mp4"]
  getsize := fun _ => 42

/-- A handler environment where the download succeeded with a small file
and the `reply_video` transport call then raises; every other operation,
including the boundary's generic edit, succeeds. -/
def faultVideoEnv : Env := { okEnvInline with fail_replyVideo := true }

/-- A handler environment where `reply_video` raises and the boundary's
own generic-error edit also raises. -/
def doubleFaultEnv : Env :=
  { okEnvInline with fail_replyVideo := true, fail_editGeneric := true }

/-- An upload environment delivering a 300 (non-2xx, non-error) status
whose body starts with the characters `http` but is not a link. -/
def status300Env : UlEnv where
  openOk := true
  post := .response 300 "httpjunk"

/-- An upload environment delivering a 200 status with a link body padded
by whitespace. -/
def status200Env : UlEnv where
  openOk := true
  post := .response 200 " https://0x0.st/abc.mp4 "

/-- A download environment whose temp directory already holds a stale mp4
from another request, listed before the freshly produced one. -/
def c9Env : DlEnv where
  probe := some { title := "Fresh Talk", duration := 600 }
  dlOk := true
  listing := ["stale.mp4", "fresh.mp4"]
  getsize := fun _ => 7

/-- A needle that is a prefix of the haystack occurs in it. -/
theorem contains_of_isPrefixOf {n l : List Char} (h : n.isPrefixOf l = true) :
    listContainsSub n l = true := by
  cases l with
  | nil =>
      cases n with
      | nil => rfl
      | cons a as => simp [List.isPrefixOf] at h
  | cons c r => simp [listContainsSub, h]

/-- If a padded needle `pre ++ n` is a prefix of the haystack, the needle
`n` occurs in the haystack. -/
theorem contains_of_append_isPrefixOf (pre : List Char) :
    ∀ {n l : List Char}, (pre ++ n).isPrefixOf l = true → listContainsSub n l = true := by
  induction pre with
  | nil => intro n l h; exact contains_of_isPrefixOf (by simpa using h)
  | cons p ps ih =>
      intro n l h
      cases l with
      | nil => simp [List.isPrefixOf] at h
      | cons c r =>
          rw [List.cons_append] at h
          simp only [List.isPrefixOf, Bool.and_eq_true] at h
          have := ih h.2
          simp [listContainsSub, this]

/-- A haystack containing `www.ted.com` also contains `ted.com`. -/
theorem contains_ted_of_contains_www :
    ∀ (l : List Char), listContainsSub "www.ted.com".data l = true →
      listContainsSub "ted.com".data l = true := by
  intro l
  induction l with
  | nil => intro h; exact absurd h (by decide)
  | cons c r ih =>
      intro h
      rw [listContainsSub, Bool.or_eq_true] at h
      cases h with
      | inl h =>
          have e : "www.ted.com".data = "www.".data ++ "ted.com".data := by decide
          rw [e] at h
          exact contains_of_append_isPrefixOf "www.".data h
      | inr h => simp [listContainsSub, ih h]

/-- Dropping while `p` holds skips over a block on which `p` holds
everywhere. -/
theorem dropWhile_append_of_all (p : Char → Bool) :
    ∀ (w r : List Char), (∀ c ∈ w, p c = true) →
      (w ++ r).dropWhile p = r.dropWhile p := by
  intro w
  induction w with
  | nil => intro r _; rfl
  | cons a as ih =>
      intro r hw
      have ha : p a = true := hw a (List.mem_cons_self a as)
      rw [List.cons_append, List.dropWhile_cons_of_pos ha]
      exact ih r (fun c hc => hw c (List.mem_cons_of_mem _ hc))

/-- `dropWhile` consumes a list on which `p` holds everywhere. -/
theorem dropWhile_all_nil (p : Char → Bool) (w : List Char)
    (hw : ∀ c ∈ w, p c = true) : w.dropWhile p = [] := by
  have := dropWhile_append_of_all p w [] hw
  simpa using this

/-- Appending trailing whitespace does not change the two-sided trim of the
left-trimmed reversal. -/
theorem stripRight_append_ws (w2 : List Char)
    (hw : ∀ c ∈ w2, Char.isWhitespace c = true) :
    ∀ (u : List Char),
      (((u ++ w2).dropWhile Char.isWhitespace).reverse).dropWhile Char.isWhitespace =
        ((u.dropWhile Char.isWhitespace).reverse).dropWhile Char.isWhitespace := by
  intro u
  induction u with
  | nil => simp [dropWhile_all_nil _ w2 hw]
  | cons a u ih =>
      by_cases ha : Char.isWhitespace a = true
      · rw [List.cons_append, List.dropWhile_cons_of_pos ha,
          List.dropWhile_cons_of_pos ha]
        exact ih
      · rw [List.cons_append, List.dropWhile_cons_of_neg ha,
          List.dropWhile_cons_of_neg ha]
        rw [List.reverse_cons, List.reverse_cons, List.reverse_append,
          List.append_assoc]
        exact dropWhile_append_of_all _ w2.reverse _
          (fun c hc => hw c (List.mem_reverse.mp hc))

/-- Surrounding whitespace is invisible to `stripList`. -/
theorem strip_pad (w1 w2 u : List Char)
    (h1 : ∀ c ∈ w1, Char.isWhitespace c = true)
    (h2 : ∀ c ∈ w2, Char.isWhitespace c = true) :
    stripList (w1 ++ u ++ w2) = stripList u := by
  unfold stripList
  rw [List.append_assoc, dropWhile_append_of_all _ w1 _ h1,
    stripRight_append_ws w2 h2 u]

/-- Surrounding whitespace is invisible to `pyStrip`. -/
theorem pyStrip_pad (w1 w2 : List Char) (u : String)
    (h1 : ∀ c ∈ w1, Char.isWhitespace c = true)
    (h2 : ∀ c ∈ w2, Char.isWhitespace c = true) :
    pyStrip (String.mk (w1 ++ u.data ++ w2)) = pyStrip u := by
  unfold pyStrip
  exact congrArg String.mk (strip_pad w1 w2 u.data h1 h2)

/-- Trace and outcome of a fault-free handler run on an accepted URL whose
download succeeded: inline delivery below the limit, upload routing at or
above it. -/
theorem handleCore_ok (env : Env) (m p t : String) (s : Nat)
    (hdl : env.dl = DlResult.ok p t s) (hok : NoFaults env) (hg : urlGate m = true) :
    handleCore env m =
      if s < TELEGRAM_FILE_LIMIT then
        ([.replyText processingMsg, .callDownload m, .editProgress uploadingTgMsg,
          .openFile p, .replyVideo p (captionOf t s), .deleteProgress,
          .removeFile p], .returned)
      else
        match env.ul with
        | UlResult.ok link =>
            ([.replyText processingMsg, .callDownload m, .editProgress tooLargeMsg,
              .callUpload p, .editProgress (linkText t s link), .removeFile p],
             .returned)
        | UlResult.err e =>
            ([.replyText processingMsg, .callDownload m, .editProgress tooLargeMsg,
              .callUpload p, .editProgress ("❌ Error: " ++ e), .removeFile p],
             .returned) := by
  obtain ⟨f1, f2, f3, f4, f5, f6, f7, f8, f9, f10, f11, f12⟩ := hok
  unfold handleCore tryBody
  rw [hg, hdl]
  by_cases hs : s < TELEGRAM_FILE_LIMIT
  · simp [hs, f2, f4, f5, f6, f7, f11]
  · cases hul : env.ul with
    | ok link => simp [hs, hul, f2, f8, f9, f11]
    | err e => simp [hs, hul, f2, f8, f10, f11]

/-- C1, counterexample: the probe reports a 2400-second talk, which exceeds
the 1800-second policy ceiling, yet `download_ted_talk` performs the full
download and returns Success with the located file — not a
duration-exceeded Failure. -/
theorem c1_counterexample :
    c1Env.probe = some { title := "T", duration := 2400 } ∧ 1800 < 2400 ∧
      download_ted_talk c1Env "/tmp" = DlResult.ok "/tmp/talk.mp4" "T" 42 := by
  refine ⟨rfl, by decide, by decide⟩

/-- C1, amended: `download_ted_talk` contains no duration check at all —
the probed duration has no effect on its result; in particular talks
longer than 1800 seconds are downloaded like any others. -/
theorem c1_theorem (env : DlEnv) (t : String) (d d' : Nat) (dir : String) :
    download_ted_talk { env with probe := some { title := t, duration := d } } dir =
      download_ted_talk { env with probe := some { title := t, duration := d' } } dir := rfl

/-- C2, counterexample: the download succeeded and produced a file, the
`reply_video` transport call then raised; the handler reaches its terminal
state (the boundary shows the generic error and returns) but `os.remove`
was never executed — the file is deleted zero times, not exactly once. -/
theorem c2_counterexample :
    faultVideoEnv.dl = DlResult.ok "/tmp/talk.mp4" "T" 1000 ∧
      (handle_message faultVideoEnv tedUrl).2 = HandlerResult.returned ∧
      countRemove (handle_message faultVideoEnv tedUrl).1 = 0 := by
  refine ⟨rfl, by decide, by decide⟩

/-- C2, amended: on every exit path on which no transport or filesystem
operation raises — successful inline delivery, successful link delivery,
and upload failure — the local file is deleted exactly once; the
unexpected-exception path is excluded, because there the `os.remove`
inside the `try` block is skipped. -/
theorem c2_theorem (env : Env) (raw p t : String) (s : Nat)
    (hdl : env.dl = DlResult.ok p t s) (hok : NoFaults env)
    (hg : urlGate (pyStrip raw) = true) :
    countRemove (handle_message env raw).1 = 1 := by
  unfold handle_message
  rw [handleCore_ok env (pyStrip raw) p t s hdl hok hg]
  by_cases hs : s < TELEGRAM_FILE_LIMIT
  · simp [hs, countRemove]
  · cases hul : env.ul with
    | ok link => simp [hs, hul, countRemove]
    | err e => simp [hs, hul, countRemove]

/-- C2, witness for the amended theorem at a fault-free inline run. -/
theorem c2_witness : countRemove (handle_message okEnvInline tedUrl).1 = 1 :=
  c2_theorem okEnvInline tedUrl "/tmp/talk.mp4" "T" 1000 rfl
    ⟨rfl, rfl, rfl, rfl, rfl, rfl, rfl, rfl, rfl, rfl, rfl, rfl⟩ (by decide)

/-- C3, counterexample: `https://evil.com/talks/ted.com` has host
`evil.com`, so the validator the claim describes rejects it; the code's
gate accepts it, because it only tests substring containment. -/
theorem c3_counterexample :
    urlGate "https://evil.com/talks/ted.com" = true ∧
      spec_is_in_scope "https://evil.com/talks/ted.com" = false := by
  decide

/-- C3, amended: the gate accepts a string iff it starts with the four
characters `http`, its lowercased form contains `ted.com` as a substring
anywhere, and its lowercased form contains `/talks/` as a substring
anywhere; the host component is never isolated, so strings whose host is a
different domain are accepted when they merely contain these substrings. -/
theorem c3_theorem (s : String) :
    urlGate s = true ↔
      (pyStartsWith s "http" = true ∧ pyIn "ted.com" (pyLower s) = true ∧
        pyIn "/talks/" (pyLower s) = true) := by
  unfold urlGate is_ted_url pyIn
  constructor
  · intro h
    rw [Bool.and_eq_true, Bool.and_eq_true, Bool.or_eq_true] at h
    obtain ⟨h1, hAB, hC⟩ := h
    refine ⟨h1, ?_, hC⟩
    cases hAB with
    | inl h => exact h
    | inr h => exact contains_ted_of_contains_www _ h
  · rintro ⟨h1, h2, h3⟩
    rw [Bool.and_eq_true, Bool.and_eq_true, Bool.or_eq_true]
    exact ⟨h1, Or.inl h2, h3⟩

/-- C4: in a fault-free run with a successful download, a file strictly
below the 49 MiB transport limit is delivered inline — the trace holds a
`reply_video` of that file with the title-and-size caption and no upload
call at all — while a file at or above the limit makes the handler invoke
the upload adapter exactly once, on that file. -/
theorem c4_theorem (env : Env) (raw p t : String) (s : Nat)
    (hdl : env.dl = DlResult.ok p t s) (hok : NoFaults env)
    (hg : urlGate (pyStrip raw) = true) :
    (s < TELEGRAM_FILE_LIMIT →
      countUpload (handle_message env raw).1 = 0 ∧
        Event.replyVideo p (captionOf t s) ∈ (handle_message env raw).1) ∧
    (TELEGRAM_FILE_LIMIT ≤ s →
      countUpload (handle_message env raw).1 = 1 ∧
        Event.callUpload p ∈ (handle_message env raw).1) := by
  unfold handle_message
  rw [handleCore_ok env (pyStrip raw) p t s hdl hok hg]
  constructor
  · intro hs
    simp [hs, countUpload]
  · intro hs
    have hs' : ¬ s < TELEGRAM_FILE_LIMIT := Nat.not_lt.mpr hs
    cases hul : env.ul with
    | ok link => simp [hs', hul, countUpload]
    | err e => simp [hs', hul, countUpload]

/-- C4, witness at a fault-free inline run with a 1000-byte file. -/
theorem c4_witness :
    countUpload (handle_message okEnvInline tedUrl).1 = 0 ∧
      Event.replyVideo "/tmp/talk.mp4" (captionOf "T" 1000) ∈
        (handle_message okEnvInline tedUrl).1 :=
  (c4_theorem okEnvInline tedUrl "/tmp/talk.mp4" "T" 1000 rfl
    ⟨rfl, rfl, rfl, rfl, rfl, rfl, rfl, rfl, rfl, rfl, rfl, rfl⟩ (by decide)).1
    (by decide)

/-- C5, counterexample: `reply_video` raises inside the Delivering stage;
the boundary `except` clause catches it, but its own generic-error
`edit_text` raises as well, and that exception propagates out of
`handle_message` to the bot shell. -/
theorem c5_counterexample :
    doubleFaultEnv.fail_replyVideo = true ∧
      (handle_message doubleFaultEnv tedUrl).2 = HandlerResult.escaped := by
  refine ⟨rfl, by decide⟩

/-- C5, amended: every exception raised inside the Downloading/Delivering
stages is caught at the handler boundary and replaced by the generic
error edit; provided that boundary edit itself (and the two replies that
precede the `try` block) does not raise, no exception leaves the handler —
but if the boundary's own edit raises, that exception escapes. -/
theorem c5_theorem (env : Env) (raw : String)
    (h1 : env.fail_replyGuidance = false) (h2 : env.fail_replyProgress = false)
    (h3 : env.fail_editGeneric = false) :
    (handle_message env raw).2 = HandlerResult.returned := by
  unfold handle_message handleCore
  by_cases hg : urlGate (pyStrip raw) = true
  · cases htb : (tryBody env (pyStrip raw)).2 <;> simp [hg, h2, h3, htb]
  · simp [hg, h1]

/-- C5, witness: `reply_video` raises but the boundary edit succeeds, so
the handler returns normally. -/
theorem c5_witness :
    (handle_message faultVideoEnv tedUrl).2 = HandlerResult.returned :=
  c5_theorem faultVideoEnv tedUrl rfl rfl rfl

/-- C6, counterexample: the POST yields status 300 — not a 2xx — with body
`httpjunk`, which does not begin with an HTTP(S) scheme; the claim demands
a Failure on both grounds, but `raise_for_status` only raises for 4xx/5xx
and the code only tests `startswith("http")`, so the code returns
Success("httpjunk"). -/
theorem c6_counterexample :
    upload_to_0x0st status300Env "/tmp/talk.mp4" = UlResult.ok "httpjunk" ∧
      (300 < 200 ∨ 299 < 300) ∧
      pyStartsWith "httpjunk" "http://" = false ∧
      pyStartsWith "httpjunk" "https://" = false := by
  refine ⟨by decide, by decide, by decide, by decide⟩

/-- C6, amended: with the file openable, a single POST is issued and the
outcome is classified as follows — connection failure or a 4xx/5xx status
gives the hosting-unreachable Failure; a delivered status outside 4xx/5xx
whose trimmed body does not start with the characters `http` gives the
invalid-link Failure; otherwise Success carries the trimmed body. -/
theorem c6_theorem (env : UlEnv) (fp : String) (hopen : env.openOk = true) :
    (env.post = PostOutcome.connError →
      upload_to_0x0st env fp =
        UlResult.err "Failed to communicate with the file hosting service.") ∧
    (∀ status body, env.post = PostOutcome.response status body →
      400 ≤ status → status < 600 →
      upload_to_0x0st env fp =
        UlResult.err "Failed to communicate with the file hosting service.") ∧
    (∀ status body, env.post = PostOutcome.response status body →
      ¬ (400 ≤ status ∧ status < 600) →
      pyStartsWith (pyStrip body) "http" = false →
      upload_to_0x0st env fp = UlResult.err "File host returned an invalid link.") ∧
    (∀ status body, env.post = PostOutcome.response status body →
      ¬ (400 ≤ status ∧ status < 600) →
      pyStartsWith (pyStrip body) "http" = true →
      upload_to_0x0st env fp = UlResult.ok (pyStrip body)) := by
  refine ⟨?_, ?_, ?_, ?_⟩
  · intro hpost
    unfold upload_to_0x0st
    rw [hpost]
    simp [hopen]
  · intro status body hpost h4 h6
    have hr : raise_for_status_raises status = true := by
      simp only [raise_for_status_raises, Bool.and_eq_true, decide_eq_true_eq]
      exact ⟨h4, h6⟩
    unfold upload_to_0x0st
    rw [hpost]
    simp [hopen, hr]
  · intro status body hpost hno hstart
    have hr : raise_for_status_raises status = false := by
      simp only [raise_for_status_raises, Bool.and_eq_false_iff,
        decide_eq_false_iff_not]
      omega
    unfold upload_to_0x0st
    rw [hpost]
    simp [hopen, hr, hstart]
  · intro status body hpost hno hstart
    have hr : raise_for_status_raises status = false := by
      simp only [raise_for_status_raises, Bool.and_eq_false_iff,
        decide_eq_false_iff_not]
      omega
    unfold upload_to_0x0st
    rw [hpost]
    simp [hopen, hr, hstart]

/-- C6, witness: a 200 response with a whitespace-padded link body yields
Success with the trimmed link. -/
theorem c6_witness :
    upload_to_0x0st status200Env "/tmp/talk.mp4" =
      UlResult.ok (pyStrip " https://0x0.st/abc.mp4 ") :=
  (c6_theorem status200Env "/tmp/talk.mp4" rfl).2.2.2 200 " https://0x0.st/abc.mp4 "
    rfl (by decide) (by decide)

/-- C7: when the stripped text fails the gate (not starting with `http` or
not an in-scope URL), the handler sends exactly the one guidance reply and
returns — no progress message is created and neither adapter is invoked,
as the trace holds no other event. -/
theorem c7_theorem (env : Env) (raw : String)
    (hg : urlGate (pyStrip raw) = false) (hr : env.fail_replyGuidance = false) :
    handle_message env raw = ([Event.replyText guidanceMsg], HandlerResult.returned) := by
  unfold handle_message handleCore
  simp [hg, hr]

/-- C7, witness at the input `"not a url"`. -/
theorem c7_witness :
    handle_message okEnvInline "not a url" =
      ([Event.replyText guidanceMsg], HandlerResult.returned) :=
  c7_theorem okEnvInline "not a url" (by decide) rfl

/-- C8: in a fault-free run with a successful download, inline delivery
ends by deleting the progress message (the trace is exactly the inline
sequence, ending in the progress deletion and the file removal), and link
delivery ends by editing the progress message in place to the final text
containing the title, the measured size and the returned link. -/
theorem c8_theorem (env : Env) (raw p t : String) (s : Nat)
    (hdl : env.dl = DlResult.ok p t s) (hok : NoFaults env)
    (hg : urlGate (pyStrip raw) = true) :
    (s < TELEGRAM_FILE_LIMIT →
      handle_message env raw =
        ([.replyText processingMsg, .callDownload (pyStrip raw),
          .editProgress uploadingTgMsg, .openFile p,
          .replyVideo p (captionOf t s), .deleteProgress, .removeFile p],
         .returned)) ∧
    (∀ link, env.ul = UlResult.ok link → TELEGRAM_FILE_LIMIT ≤ s →
      handle_message env raw =
        ([.replyText processingMsg, .callDownload (pyStrip raw),
          .editProgress tooLargeMsg, .callUpload p,
          .editProgress (linkText t s link), .removeFile p], .returned)) := by
  unfold handle_message
  rw [handleCore_ok env (pyStrip raw) p t s hdl hok hg]
  constructor
  · intro hs
    simp [hs]
  · intro link hul hs
    have hs' : ¬ s < TELEGRAM_FILE_LIMIT := Nat.not_lt.mpr hs
    simp [hs', hul]

/-- C8, witness: a fault-free link delivery of an 80 MiB file edits the
progress message to the final link text. -/
theorem c8_witness :
    handle_message okEnvLink tedUrl =
      ([.replyText processingMsg, .callDownload (pyStrip tedUrl),
        .editProgress tooLargeMsg, .callUpload "/tmp/talk.mp4",
        .editProgress (linkText "T" (80 * 1024 * 1024) "https://0x0.st/abc.mp4"),
        .removeFile "/tmp/talk.mp4"], .returned) :=
  (c8_theorem okEnvLink tedUrl "/tmp/talk.mp4" "T" (80 * 1024 * 1024) rfl
    ⟨rfl, rfl, rfl, rfl, rfl, rfl, rfl, rfl, rfl, rfl, rfl, rfl⟩ (by decide)).2
    "https://0x0.st/abc.mp4" rfl (by decide)

/-- C9: `download_ted_talk` takes the first `.mp4` entry of the shared
temp-directory listing as the delivered artifact; when the listing begins
with a stale mp4 left by another request, the returned Success carries
that stale file's path and its size, not the freshly downloaded file. -/
theorem c9_theorem (env : DlEnv) (dir stale : String) (rest : List String)
    (info : ProbeInfo) (hp : env.probe = some info) (hd : env.dlOk = true)
    (hl : env.listing = stale :: rest) (hmp4 : pyEndsWith stale ".mp4" = true) :
    download_ted_talk env dir =
      DlResult.ok (dir ++ "/" ++ stale) info.title
        (env.getsize (dir ++ "/" ++ stale)) := by
  unfold download_ted_talk
  rw [hp, hd, hl]
  rw [show List.find? (fun f => pyEndsWith f ".mp4") (stale :: rest) = some stale from
    List.find?_cons_of_pos rest hmp4]
  simp [List.contains_cons]

/-- C9, witness: with the listing `["stale.mp4", "fresh.mp4"]`, Success
refers to `stale.mp4`. -/
theorem c9_witness :
    download_ted_talk c9Env "/tmp" =
      DlResult.ok ("/tmp" ++ "/" ++ "stale.mp4") "Fresh Talk" 7 :=
  c9_theorem c9Env "/tmp" "stale.mp4" ["fresh.mp4"]
    { title := "Fresh Talk", duration := 600 } rfl rfl rfl (by decide)

/-- C10: `handle_message` strips the incoming text before anything else,
so a message consisting of a string surrounded by whitespace is processed
identically — same trace, same outcome — to the string itself. -/
theorem c10_theorem (env : Env) (w1 w2 : List Char) (u : String)
    (h1 : ∀ c ∈ w1, Char.isWhitespace c = true)
    (h2 : ∀ c ∈ w2, Char.isWhitespace c = true) :
    handle_message env (String.mk (w1 ++ u.data ++ w2)) = handle_message env u := by
  unfold handle_message
  rw [pyStrip_pad w1 w2 u h1 h2]

/-- C10, witness: the talk URL padded with a space and a newline is
handled identically to the bare URL. -/
theorem c10_witness :
    handle_message okEnvInline (String.mk ([' '] ++ tedUrl.data ++ ['\n'])) =
      handle_message okEnvInline tedUrl :=
  c10_theorem okEnvInline [' '] ['\n'] tedUrl (by decide) (by decide)
